import Mathlib

/-!
Shallow embedding of the fastapi-hotel-api core
(operations/interface.py, operations/room.py, operations/customer.py,
operations/booking.py, models/room.py, models/customer.py, models/booking.py).

Python dicts are modelled as insertion-ordered association lists with the
dict semantics of CPython: assigning to an existing key replaces the value
in place, assigning to a fresh key appends at the end, deleting removes the
entry.  `datetime.date` values are modelled by their proleptic Gregorian
ordinal (an integer), matching `date.toordinal`; subtracting two dates in
Python yields a timedelta whose `.days` is the difference of ordinals.
Raised exceptions become `Except` errors; mutation of a store becomes
explicit state passing, with the error path returning the store unchanged
(the Python exception propagates before any further mutation).  UUID
generation (`str(uuid.uuid4())`) is nondeterministic, so each creating
operation takes the fresh id as an explicit argument.
-/

namespace HotelApi

/-- A Python value stored in a record: string, int, or `datetime.date`
(represented by its `toordinal` integer). -/
inductive Value where
  | str : String → Value
  | int : Int → Value
  | date : Int → Value
deriving DecidableEq, Repr

/-- `DataObject = dict[str, Any]`: a record, as an insertion-ordered
association list from field name to value. -/
abbrev Record := List (String × Value)

/-- The `DataInterfaceStub.data` mapping `dict[str, DataObject]`.  Keys are
`Value` because Python stores a record under whatever value sits in its
`id` field; the operations layer always uses strings. -/
abbrev Store := List (Value × Record)

/-- Python dict lookup `d[k]` / `d.get(k)`: the value at the first (and, for
dicts built by assignment, only) occurrence of the key. -/
def dget {κ α : Type} [DecidableEq κ] : List (κ × α) → κ → Option α
  | [], _ => none
  | (k, v) :: rest, k0 => if k = k0 then some v else dget rest k0

/-- Python dict assignment `d[k] = v`: replaces the value at an existing key
in place, otherwise appends the new entry at the end (insertion order). -/
def dset {κ α : Type} [DecidableEq κ] : List (κ × α) → κ → α → List (κ × α)
  | [], k0, v0 => [(k0, v0)]
  | (k, v) :: rest, k0, v0 =>
      if k = k0 then (k0, v0) :: rest else (k, v) :: dset rest k0 v0

/-- Python `del d[k]`: removes the entry at the key (the stub checks
membership before deleting). -/
def ddel {κ α : Type} [DecidableEq κ] : List (κ × α) → κ → List (κ × α)
  | [], _ => []
  | (k, v) :: rest, k0 => if k = k0 then rest else (k, v) :: ddel rest k0

/-- Python `base.update(upd)`: merge `upd` into `base`, field by field, in
the order of `upd` (shallow field-level overwrite). -/
def dmerge {κ α : Type} [DecidableEq κ] (base upd : List (κ × α)) :
    List (κ × α) :=
  upd.foldl (fun acc kv => dset acc kv.1 kv.2) base

/-- The error taxonomy of the core: every raise in the source is a
`KeyError` (carrying its message); `validationError` stands for a Pydantic
model failing to validate a record. -/
inductive Err where
  | keyError : String → Err
  | validationError : Err
  | typeError : Err
deriving DecidableEq, Repr

namespace DataInterfaceStub

/-- `DataInterfaceStub.read_by_id`: `KeyError` if the id is absent,
otherwise the stored record. -/
def read_by_id (s : Store) (id : Value) : Except Err Record :=
  match dget s id with
  | none => .error (.keyError "Not found")
  | some r => .ok r

/-- `DataInterfaceStub.read_all`: every stored record, in insertion order.
Total: it never fails. -/
def read_all (s : Store) : List Record :=
  s.map (fun kv => kv.2)

/-- `DataInterfaceStub.create`: `self.data[data["id"]] = data; return data`.
Looking up `"id"` on a record lacking it raises `KeyError("id")` before any
mutation; otherwise the record is stored under its id value (overwriting
any previous record there) and returned unchanged. -/
def create (s : Store) (data : Record) : Except Err Record × Store :=
  match dget data "id" with
  | none => (.error (.keyError "id"), s)
  | some k => (.ok data, dset s k data)

/-- `DataInterfaceStub.update`: `KeyError` if the id is absent, otherwise
merges the given fields into the stored record and returns the full updated
record. -/
def update (s : Store) (id : Value) (data : Record) :
    Except Err Record × Store :=
  match dget s id with
  | none => (.error (.keyError "Not found"), s)
  | some r =>
      let merged := dmerge r data
      (.ok merged, dset s id merged)

/-- `DataInterfaceStub.delete`: `KeyError` if the id is absent, otherwise
removes the record. -/
def delete (s : Store) (id : Value) : Except Err Unit × Store :=
  match dget s id with
  | none => (.error (.keyError "Not found"), s)
  | some _ => (.ok (), ddel s id)

end DataInterfaceStub

/-- Pydantic `Room` (models/room.py): `{id, number, size, price}`. -/
structure Room where
  id : String
  number : String
  size : Int
  price : Int
deriving DecidableEq, Repr

/-- Pydantic `RoomCreate` (models/room.py): `{number, size, price}`. -/
structure RoomCreate where
  number : String
  size : Int
  price : Int
deriving DecidableEq, Repr

/-- Pydantic `RoomUpdate` (models/room.py): all three fields optional,
defaulting to `None`, enabling partial updates via `exclude_none=True`. -/
structure RoomUpdate where
  number : Option String := none
  size : Option Int := none
  price : Option Int := none
deriving DecidableEq, Repr

/-- Pydantic `Customer` (models/customer.py): `{id, name, email}`. -/
structure Customer where
  id : String
  name : String
  email : String
deriving DecidableEq, Repr

/-- Pydantic `CustomerCreate` (models/customer.py): `{name, email}`. -/
structure CustomerCreate where
  name : String
  email : String
deriving DecidableEq, Repr

/-- Pydantic `BookingCreate` (models/booking.py): `{room_id, customer_id,
from_date, to_date}`; dates as proleptic Gregorian ordinals. -/
structure BookingCreate where
  room_id : String
  customer_id : String
  from_date : Int
  to_date : Int
deriving DecidableEq, Repr

/-- Pydantic `Booking` (models/booking.py): the booking record plus the
derived `price`. -/
structure Booking where
  id : String
  room_id : String
  customer_id : String
  from_date : Int
  to_date : Int
  price : Int
deriving DecidableEq, Repr

/-- `Room(**record)`: validate a raw record into a `Room` — each declared
field must be present with the declared type; extra fields are ignored
(Pydantic default). -/
def Room.ofRecord (r : Record) : Option Room :=
  match dget r "id", dget r "number", dget r "size", dget r "price" with
  | some (.str i), some (.str n), some (.int sz), some (.int p) =>
      some ⟨i, n, sz, p⟩
  | _, _, _, _ => none

/-- `Customer(**record)`: validate a raw record into a `Customer`. -/
def Customer.ofRecord (r : Record) : Option Customer :=
  match dget r "id", dget r "name", dget r "email" with
  | some (.str i), some (.str n), some (.str e) => some ⟨i, n, e⟩
  | _, _, _ => none

/-- `Booking(**record)`: validate a raw record into a `Booking`. -/
def Booking.ofRecord (r : Record) : Option Booking :=
  match dget r "id", dget r "room_id", dget r "customer_id",
      dget r "from_date", dget r "to_date", dget r "price" with
  | some (.str i), some (.str ri), some (.str ci),
      some (.date f), some (.date t), some (.int p) =>
      some ⟨i, ri, ci, f, t, p⟩
  | _, _, _, _, _, _ => none

/-- `RoomCreate.model_dump()`: fields in declaration order. -/
def RoomCreate.model_dump (d : RoomCreate) : Record :=
  [("number", .str d.number), ("size", .int d.size), ("price", .int d.price)]

/-- `RoomUpdate.model_dump(exclude_none=True)`: only the fields that are
not `None`, in declaration order. -/
def RoomUpdate.dump_exclude_none (d : RoomUpdate) : Record :=
  (match d.number with | some n => [("number", Value.str n)] | none => []) ++
  (match d.size with | some sz => [("size", Value.int sz)] | none => []) ++
  (match d.price with | some p => [("price", Value.int p)] | none => [])

/-- `CustomerCreate.model_dump()`: fields in declaration order. -/
def CustomerCreate.model_dump (d : CustomerCreate) : Record :=
  [("name", .str d.name), ("email", .str d.email)]

/-- `BookingCreate.model_dump()`: fields in declaration order. -/
def BookingCreate.model_dump (d : BookingCreate) : Record :=
  [("room_id", .str d.room_id), ("customer_id", .str d.customer_id),
   ("from_date", .date d.from_date), ("to_date", .date d.to_date)]

/-- `operations/room.py read_all_rooms`: read every record and validate
each into a `Room`. -/
def read_all_rooms (s : Store) : Except Err (List Room) :=
  (DataInterfaceStub.read_all s).mapM fun r =>
    match Room.ofRecord r with
    | none => .error .validationError
    | some room => .ok room

/-- `operations/room.py read_room`. -/
def read_room (room_id : String) (s : Store) : Except Err Room :=
  match DataInterfaceStub.read_by_id s (.str room_id) with
  | .error e => .error e
  | .ok r =>
      match Room.ofRecord r with
      | none => .error .validationError
      | some room => .ok room

/-- `operations/room.py create_room`: dump the input, append a fresh id,
store, validate the stored record back into a `Room`. -/
def create_room (data : RoomCreate) (newId : String) (s : Store) :
    Except Err Room × Store :=
  let room_data := dset data.model_dump "id" (.str newId)
  match DataInterfaceStub.create s room_data with
  | (.error e, s1) => (.error e, s1)
  | (.ok created, s1) =>
      match Room.ofRecord created with
      | none => (.error .validationError, s1)
      | some room => (.ok room, s1)

/-- `operations/room.py update_room`: partial update with
`exclude_none=True`, then validate the full updated record. -/
def update_room (room_id : String) (data : RoomUpdate) (s : Store) :
    Except Err Room × Store :=
  let update_data := data.dump_exclude_none
  match DataInterfaceStub.update s (.str room_id) update_data with
  | (.error e, s1) => (.error e, s1)
  | (.ok updated, s1) =>
      match Room.ofRecord updated with
      | none => (.error .validationError, s1)
      | some room => (.ok room, s1)

/-- `operations/room.py delete_room`. -/
def delete_room (room_id : String) (s : Store) : Except Err Unit × Store :=
  DataInterfaceStub.delete s (.str room_id)

/-- `operations/customer.py read_all_customers`. -/
def read_all_customers (s : Store) : Except Err (List Customer) :=
  (DataInterfaceStub.read_all s).mapM fun r =>
    match Customer.ofRecord r with
    | none => .error .validationError
    | some c => .ok c

/-- `operations/customer.py read_customer`. -/
def read_customer (customer_id : String) (s : Store) : Except Err Customer :=
  match DataInterfaceStub.read_by_id s (.str customer_id) with
  | .error e => .error e
  | .ok r =>
      match Customer.ofRecord r with
      | none => .error .validationError
      | some c => .ok c

/-- `operations/customer.py create_customer`. -/
def create_customer (data : CustomerCreate) (newId : String) (s : Store) :
    Except Err Customer × Store :=
  let customer_data := dset data.model_dump "id" (.str newId)
  match DataInterfaceStub.create s customer_data with
  | (.error e, s1) => (.error e, s1)
  | (.ok created, s1) =>
      match Customer.ofRecord created with
      | none => (.error .validationError, s1)
      | some c => (.ok c, s1)

/-- `operations/customer.py delete_customer`. -/
def delete_customer (customer_id : String) (s : Store) :
    Except Err Unit × Store :=
  DataInterfaceStub.delete s (.str customer_id)

/-- `operations/booking.py create_booking`: look up the room (the raised
`KeyError` propagates before the booking store is touched), compute
`nights = (to_date - from_date).days` and `price = nights * room["price"]`
(a missing `price` field is `KeyError("price")`; a non-integer one is
modelled as a type error), then persist the dumped input extended with the
fresh id and the derived price, and validate it into a `Booking`. -/
def create_booking (data : BookingCreate) (newId : String)
    (data_interface room_interface : Store) :
    Except Err Booking × Store :=
  match DataInterfaceStub.read_by_id room_interface (.str data.room_id) with
  | .error e => (.error e, data_interface)
  | .ok room =>
      match dget room "price" with
      | none => (.error (.keyError "price"), data_interface)
      | some (.str _) => (.error .typeError, data_interface)
      | some (.date _) => (.error .typeError, data_interface)
      | some (.int roomPrice) =>
          let nights := data.to_date - data.from_date
          let price := nights * roomPrice
          let booking_data :=
            dset (dset data.model_dump "id" (.str newId)) "price" (.int price)
          match DataInterfaceStub.create data_interface booking_data with
          | (.error e, s1) => (.error e, s1)
          | (.ok created, s1) =>
              match Booking.ofRecord created with
              | none => (.error .validationError, s1)
              | some b => (.ok b, s1)

/-- `operations/booking.py read_all_bookings`. -/
def read_all_bookings (s : Store) : Except Err (List Booking) :=
  (DataInterfaceStub.read_all s).mapM fun r =>
    match Booking.ofRecord r with
    | none => .error .validationError
    | some b => .ok b

/-- `operations/booking.py read_booking`. -/
def read_booking (booking_id : String) (s : Store) : Except Err Booking :=
  match DataInterfaceStub.read_by_id s (.str booking_id) with
  | .error e => .error e
  | .ok r =>
      match Booking.ofRecord r with
      | none => .error .validationError
      | some b => .ok b

/-- `operations/booking.py delete_booking`. -/
def delete_booking (booking_id : String) (s : Store) :
    Except Err Unit × Store :=
  DataInterfaceStub.delete s (.str booking_id)

/-- Whether a year is a Gregorian leap year (`calendar.isleap`). -/
def isLeapYear (y : Nat) : Bool :=
  (y % 4 == 0 && y % 100 != 0) || y % 400 == 0

/-- Days in all years strictly before year `y`
(`datetime._days_before_year`). -/
def daysBeforeYear (y : Nat) : Nat :=
  (y - 1) * 365 + (y - 1) / 4 - (y - 1) / 100 + (y - 1) / 400

/-- Days in year `y` strictly before month `m`
(`datetime._days_before_month`). -/
def daysBeforeMonth (y m : Nat) : Nat :=
  [0, 31, 59, 90, 120, 151, 181, 212, 243, 273, 304, 334].getD (m - 1) 0 +
    (if 2 < m && isLeapYear y then 1 else 0)

/-- `datetime.date(y, m, d).toordinal()`: the proleptic Gregorian ordinal,
with ordinal 1 being 0001-01-01. -/
def toOrdinal (y m d : Nat) : Int :=
  ((daysBeforeYear y + daysBeforeMonth y m + d : Nat) : Int)

/-- The system state wired by `main.py`: one store instance per entity
kind (rooms, customers, bookings are separate store instances). -/
structure Sys where
  rooms : Store
  customers : Store
  bookings : Store
deriving Repr

/-- One call of the entity-operations layer, with the nondeterministic
fresh UUID of each create supplied as data. -/
inductive EntityOp where
  | createRoom (d : RoomCreate) (newId : String)
  | updateRoom (id : String) (u : RoomUpdate)
  | deleteRoom (id : String)
  | createCustomer (d : CustomerCreate) (newId : String)
  | deleteCustomer (id : String)
  | createBooking (d : BookingCreate) (newId : String)
  | deleteBooking (id : String)
deriving Repr

/-- Apply one entity-operation call to the system state (reads do not
change state and are omitted); the booking create reads the room store and
writes the booking store, as in the router wiring. -/
def applyOp (sys : Sys) : EntityOp → Sys
  | .createRoom d newId => { sys with rooms := (create_room d newId sys.rooms).2 }
  | .updateRoom id u => { sys with rooms := (update_room id u sys.rooms).2 }
  | .deleteRoom id => { sys with rooms := (delete_room id sys.rooms).2 }
  | .createCustomer d newId =>
      { sys with customers := (create_customer d newId sys.customers).2 }
  | .deleteCustomer id =>
      { sys with customers := (delete_customer id sys.customers).2 }
  | .createBooking d newId =>
      { sys with bookings := (create_booking d newId sys.bookings sys.rooms).2 }
  | .deleteBooking id => { sys with bookings := (delete_booking id sys.bookings).2 }

/-- Apply a sequence of entity-operation calls in order. -/
def applyOps (sys : Sys) (ops : List EntityOp) : Sys :=
  ops.foldl applyOp sys

/-- A store whose every entry is keyed by the value of its record's `id`
field: `store.data[k]["id"] == k` for every key `k`. -/
def keyIdCoherent (s : Store) : Prop :=
  ∀ kv ∈ s, dget kv.2 "id" = some kv.1

instance (s : Store) : Decidable (keyIdCoherent s) := by
  unfold keyIdCoherent; infer_instance

section DictLemmas

variable {κ α : Type} [DecidableEq κ]

theorem dget_dset (d : List (κ × α)) (k k0 : κ) (v : α) :
    dget (dset d k v) k0 = if k = k0 then some v else dget d k0 := by
  induction d with
  | nil => simp [dget, dset]
  | cons kv rest ih =>
      obtain ⟨k1, v1⟩ := kv
      by_cases h1 : k1 = k
      · subst h1
        by_cases h0 : k1 = k0 <;> simp [dget, dset, h0]
      · by_cases h0 : k1 = k0
        · subst h0
          simp [dget, dset, h1, Ne.symm h1]
        · simp [dget, dset, h0, h1, ih]

theorem dget_dset_self (d : List (κ × α)) (k : κ) (v : α) :
    dget (dset d k v) k = some v := by
  simp [dget_dset]

theorem dget_dset_ne (d : List (κ × α)) (k k0 : κ) (v : α) (h : k ≠ k0) :
    dget (dset d k v) k0 = dget d k0 := by
  simp [dget_dset, h]

theorem dset_eq_append (d : List (κ × α)) (k : κ) (v : α)
    (h : dget d k = none) : dset d k v = d ++ [(k, v)] := by
  induction d with
  | nil => simp [dset]
  | cons kv rest ih =>
      obtain ⟨k1, v1⟩ := kv
      by_cases h1 : k1 = k
      · subst h1; simp [dget] at h
      · simp [dget, h1] at h
        simp [dset, h1, ih h]

theorem dget_mem (d : List (κ × α)) (k : κ) (v : α)
    (h : dget d k = some v) : (k, v) ∈ d := by
  induction d with
  | nil => simp [dget] at h
  | cons kv rest ih =>
      obtain ⟨k1, v1⟩ := kv
      by_cases h1 : k1 = k
      · subst h1
        simp [dget] at h
        simp [h]
      · simp [dget, h1] at h
        exact List.mem_cons_of_mem _ (ih h)

theorem mem_dset (d : List (κ × α)) (k : κ) (v : α) (kv : κ × α)
    (h : kv ∈ dset d k v) : kv = (k, v) ∨ kv ∈ d := by
  induction d with
  | nil => simpa [dset] using h
  | cons kv1 rest ih =>
      obtain ⟨k1, v1⟩ := kv1
      by_cases h1 : k1 = k
      · subst h1
        simp [dset] at h
        rcases h with h | h
        · exact Or.inl h
        · exact Or.inr (List.mem_cons_of_mem _ h)
      · simp [dset, h1] at h
        rcases h with h | h
        · exact Or.inr (by simp [h])
        · rcases ih h with h2 | h2
          · exact Or.inl h2
          · exact Or.inr (List.mem_cons_of_mem _ h2)

theorem mem_ddel (d : List (κ × α)) (k : κ) (kv : κ × α)
    (h : kv ∈ ddel d k) : kv ∈ d := by
  induction d with
  | nil => simp [ddel] at h
  | cons kv1 rest ih =>
      obtain ⟨k1, v1⟩ := kv1
      by_cases h1 : k1 = k
      · subst h1
        simp [ddel] at h
        exact List.mem_cons_of_mem _ h
      · simp [ddel, h1] at h
        rcases h with h | h
        · simp [h]
        · exact List.mem_cons_of_mem _ (ih h)

end DictLemmas

theorem Room.ofRecord_eq_some (r : Record) (room : Room) :
    Room.ofRecord r = some room ↔
      dget r "id" = some (.str room.id) ∧
      dget r "number" = some (.str room.number) ∧
      dget r "size" = some (.int room.size) ∧
      dget r "price" = some (.int room.price) := by
  constructor
  · intro h
    unfold Room.ofRecord at h
    split at h
    · cases h
      exact ⟨by assumption, by assumption, by assumption, by assumption⟩
    · cases h
  · rintro ⟨h1, h2, h3, h4⟩
    unfold Room.ofRecord
    rw [h1, h2, h3, h4]

theorem create_room_spec (data : RoomCreate) (newId : String) (s : Store) :
    create_room data newId s =
      (.ok { id := newId, number := data.number, size := data.size,
             price := data.price },
       dset s (.str newId)
         [("number", .str data.number), ("size", .int data.size),
          ("price", .int data.price), ("id", .str newId)]) := rfl

theorem create_customer_spec (data : CustomerCreate) (newId : String)
    (s : Store) :
    create_customer data newId s =
      (.ok { id := newId, name := data.name, email := data.email },
       dset s (.str newId)
         [("name", .str data.name), ("email", .str data.email),
          ("id", .str newId)]) := rfl

theorem create_booking_spec (data : BookingCreate) (newId : String)
    (bs rs : Store) (room : Record) (P : Int)
    (hroom : dget rs (.str data.room_id) = some room)
    (hP : dget room "price" = some (.int P)) :
    create_booking data newId bs rs =
      (.ok { id := newId, room_id := data.room_id,
             customer_id := data.customer_id,
             from_date := data.from_date, to_date := data.to_date,
             price := (data.to_date - data.from_date) * P },
       dset bs (.str newId)
         [("room_id", .str data.room_id),
          ("customer_id", .str data.customer_id),
          ("from_date", .date data.from_date),
          ("to_date", .date data.to_date),
          ("id", .str newId),
          ("price", .int ((data.to_date - data.from_date) * P))]) := by
  unfold create_booking DataInterfaceStub.read_by_id
  rw [hroom]
  show (match dget room "price" with
    | none => _
    | some (.str _) => _
    | some (.date _) => _
    | some (.int roomPrice) => _) = _
  rw [hP]
  rfl

theorem create_booking_room_absent (data : BookingCreate) (newId : String)
    (bs rs : Store) (h : dget rs (.str data.room_id) = none) :
    create_booking data newId bs rs = (.error (.keyError "Not found"), bs) := by
  unfold create_booking DataInterfaceStub.read_by_id
  rw [h]

theorem create_booking_price_missing (data : BookingCreate) (newId : String)
    (bs rs : Store) (room : Record)
    (hroom : dget rs (.str data.room_id) = some room)
    (hp : dget room "price" = none) :
    create_booking data newId bs rs = (.error (.keyError "price"), bs) := by
  unfold create_booking DataInterfaceStub.read_by_id
  rw [hroom]
  show (match dget room "price" with
    | none => _
    | some (.str _) => _
    | some (.date _) => _
    | some (.int roomPrice) => _) = _
  rw [hp]

theorem create_booking_price_str (data : BookingCreate) (newId : String)
    (bs rs : Store) (room : Record) (a : String)
    (hroom : dget rs (.str data.room_id) = some room)
    (hp : dget room "price" = some (.str a)) :
    create_booking data newId bs rs = (.error .typeError, bs) := by
  unfold create_booking DataInterfaceStub.read_by_id
  rw [hroom]
  show (match dget room "price" with
    | none => _
    | some (.str _) => _
    | some (.date _) => _
    | some (.int roomPrice) => _) = _
  rw [hp]

theorem create_booking_price_date (data : BookingCreate) (newId : String)
    (bs rs : Store) (room : Record) (a : Int)
    (hroom : dget rs (.str data.room_id) = some room)
    (hp : dget room "price" = some (.date a)) :
    create_booking data newId bs rs = (.error .typeError, bs) := by
  unfold create_booking DataInterfaceStub.read_by_id
  rw [hroom]
  show (match dget room "price" with
    | none => _
    | some (.str _) => _
    | some (.date _) => _
    | some (.int roomPrice) => _) = _
  rw [hp]

/-- C1: for every room record with integer price `P` stored in the room
store under key `room_id`, and any pair of dates with whole-day difference
`n` (positive, zero, or negative), `create_booking` succeeds and returns a
`Booking` whose price is `n * P`. -/
theorem C1_create_booking_price (data : BookingCreate) (newId : String)
    (bs rs : Store) (room : Record) (P : Int)
    (hroom : dget rs (.str data.room_id) = some room)
    (hP : dget room "price" = some (.int P)) :
    (create_booking data newId bs rs).1 =
      .ok { id := newId, room_id := data.room_id,
            customer_id := data.customer_id, from_date := data.from_date,
            to_date := data.to_date,
            price := (data.to_date - data.from_date) * P } := by
  rw [create_booking_spec data newId bs rs room P hroom hP]

/-- C1 witness: the two concrete scenarios of the spec — one night
2024-12-24 → 2024-12-25 at rate 150 gives price 150; five nights
2024-12-20 → 2024-12-25 at rate 100 gives price 500. -/
theorem C1_create_booking_price_witness :
    (create_booking
        { room_id := "room-1", customer_id := "cust-1",
          from_date := toOrdinal 2024 12 24, to_date := toOrdinal 2024 12 25 }
        "b1" []
        [(.str "room-1",
          [("id", .str "room-1"), ("number", .str "101"),
           ("size", .int 2), ("price", .int 150)])]).1 =
      .ok { id := "b1", room_id := "room-1", customer_id := "cust-1",
            from_date := toOrdinal 2024 12 24,
            to_date := toOrdinal 2024 12 25, price := 150 } ∧
    (create_booking
        { room_id := "room-1", customer_id := "cust-1",
          from_date := toOrdinal 2024 12 20, to_date := toOrdinal 2024 12 25 }
        "b2" []
        [(.str "room-1",
          [("id", .str "room-1"), ("number", .str "101"),
           ("size", .int 2), ("price", .int 100)])]).1 =
      .ok { id := "b2", room_id := "room-1", customer_id := "cust-1",
            from_date := toOrdinal 2024 12 20,
            to_date := toOrdinal 2024 12 25, price := 500 } := by
  constructor
  · exact C1_create_booking_price
      { room_id := "room-1", customer_id := "cust-1",
        from_date := toOrdinal 2024 12 24, to_date := toOrdinal 2024 12 25 }
      "b1" []
      [(.str "room-1",
        [("id", .str "room-1"), ("number", .str "101"),
         ("size", .int 2), ("price", .int 150)])]
      [("id", .str "room-1"), ("number", .str "101"),
       ("size", .int 2), ("price", .int 150)]
      150 (by rfl) (by rfl)
  · exact C1_create_booking_price
      { room_id := "room-1", customer_id := "cust-1",
        from_date := toOrdinal 2024 12 20, to_date := toOrdinal 2024 12 25 }
      "b2" []
      [(.str "room-1",
        [("id", .str "room-1"), ("number", .str "101"),
         ("size", .int 2), ("price", .int 100)])]
      [("id", .str "room-1"), ("number", .str "101"),
       ("size", .int 2), ("price", .int 100)]
      100 (by rfl) (by rfl)

/-- C2: if the room id is not a key of the room store, `create_booking`
fails with the NotFound `KeyError` and the booking store is returned
exactly as it was — no booking record is persisted on the error path. -/
theorem C2_room_not_found (data : BookingCreate) (newId : String)
    (bs rs : Store) (h : dget rs (.str data.room_id) = none) :
    create_booking data newId bs rs = (.error (.keyError "Not found"), bs) :=
  create_booking_room_absent data newId bs rs h

/-- C2 witness: the `test_room_not_found` scenario — empty room store,
booking against id `"nonexistent"`. -/
theorem C2_room_not_found_witness :
    create_booking
        { room_id := "nonexistent", customer_id := "cust-1",
          from_date := toOrdinal 2024 12 24, to_date := toOrdinal 2024 12 25 }
        "b1" [] [] =
      (.error (.keyError "Not found"), []) :=
  C2_room_not_found
    { room_id := "nonexistent", customer_id := "cust-1",
      from_date := toOrdinal 2024 12 24, to_date := toOrdinal 2024 12 25 }
    "b1" [] [] (by rfl)

/-- C4: for an id absent from a store, the storage level fails with
NotFound on `read_by_id`, `update`, and `delete`, and every entity
operation (room read/update/delete, customer read/delete, booking
read/delete) propagates exactly that error, with the store unchanged. -/
theorem C4_notfound_universal (id : String) (u : RoomUpdate) (d : Record)
    (s : Store) (h : dget s (.str id) = none) :
    DataInterfaceStub.read_by_id s (.str id) =
      .error (.keyError "Not found") ∧
    DataInterfaceStub.update s (.str id) d =
      (.error (.keyError "Not found"), s) ∧
    DataInterfaceStub.delete s (.str id) =
      (.error (.keyError "Not found"), s) ∧
    read_room id s = .error (.keyError "Not found") ∧
    update_room id u s = (.error (.keyError "Not found"), s) ∧
    delete_room id s = (.error (.keyError "Not found"), s) ∧
    read_customer id s = .error (.keyError "Not found") ∧
    delete_customer id s = (.error (.keyError "Not found"), s) ∧
    read_booking id s = .error (.keyError "Not found") ∧
    delete_booking id s = (.error (.keyError "Not found"), s) := by
  refine ⟨?_, ?_, ?_, ?_, ?_, ?_, ?_, ?_, ?_, ?_⟩ <;>
    simp [read_room, update_room, delete_room, read_customer,
      delete_customer, read_booking, delete_booking,
      DataInterfaceStub.read_by_id, DataInterfaceStub.update,
      DataInterfaceStub.delete, h]

/-- C4 witness: the empty store with id `"nonexistent"` and the
price-only update of the tests. -/
theorem C4_notfound_universal_witness :
    DataInterfaceStub.read_by_id [] (Value.str "nonexistent") =
      Except.error (Err.keyError "Not found") ∧
    DataInterfaceStub.update [] (Value.str "nonexistent") [] =
      (Except.error (Err.keyError "Not found"), ([] : Store)) ∧
    DataInterfaceStub.delete [] (Value.str "nonexistent") =
      (Except.error (Err.keyError "Not found"), ([] : Store)) ∧
    read_room "nonexistent" [] = Except.error (Err.keyError "Not found") ∧
    update_room "nonexistent" { price := some 200 } [] =
      (Except.error (Err.keyError "Not found"), ([] : Store)) ∧
    delete_room "nonexistent" [] =
      (Except.error (Err.keyError "Not found"), ([] : Store)) ∧
    read_customer "nonexistent" [] =
      Except.error (Err.keyError "Not found") ∧
    delete_customer "nonexistent" [] =
      (Except.error (Err.keyError "Not found"), ([] : Store)) ∧
    read_booking "nonexistent" [] =
      Except.error (Err.keyError "Not found") ∧
    delete_booking "nonexistent" [] =
      (Except.error (Err.keyError "Not found"), ([] : Store)) :=
  C4_notfound_universal "nonexistent" { price := some 200 } [] [] (by rfl)

/-- C7: storage-level `create` never fails for a record carrying an `id`
field: it stores the record under that id value and returns it unchanged;
a record already stored under the same id is silently overwritten
(last-write-wins), never an error. -/
theorem C7_create_total (s : Store) (r : Record) (k : Value)
    (h : dget r "id" = some k) :
    DataInterfaceStub.create s r = (.ok r, dset s k r) ∧
    dget (dset s k r) k = some r := by
  constructor
  · unfold DataInterfaceStub.create
    rw [h]
  · exact dget_dset_self s k r

/-- C7 witness: creating a record whose id `"room-1"` already keys another
record silently overwrites it. -/
theorem C7_create_total_witness :
    DataInterfaceStub.create
        [(Value.str "room-1",
          [("id", Value.str "room-1"), ("number", Value.str "101"),
           ("size", Value.int 2), ("price", Value.int 150)])]
        [("id", Value.str "room-1"), ("number", Value.str "102"),
         ("size", Value.int 4), ("price", Value.int 250)] =
      (Except.ok
         [("id", Value.str "room-1"), ("number", Value.str "102"),
          ("size", Value.int 4), ("price", Value.int 250)],
       dset
         ([(Value.str "room-1",
            [("id", Value.str "room-1"), ("number", Value.str "101"),
             ("size", Value.int 2), ("price", Value.int 150)])] : Store)
         (Value.str "room-1")
         [("id", Value.str "room-1"), ("number", Value.str "102"),
          ("size", Value.int 4), ("price", Value.int 250)]) ∧
    dget
        (dset
          ([(Value.str "room-1",
             [("id", Value.str "room-1"), ("number", Value.str "101"),
              ("size", Value.int 2), ("price", Value.int 150)])] : Store)
          (Value.str "room-1")
          [("id", Value.str "room-1"), ("number", Value.str "102"),
           ("size", Value.int 4), ("price", Value.int 250)])
        (Value.str "room-1") =
      some [("id", Value.str "room-1"), ("number", Value.str "102"),
            ("size", Value.int 4), ("price", Value.int 250)] :=
  C7_create_total
    [(Value.str "room-1",
      [("id", Value.str "room-1"), ("number", Value.str "101"),
       ("size", Value.int 2), ("price", Value.int 150)])]
    [("id", Value.str "room-1"), ("number", Value.str "102"),
     ("size", Value.int 4), ("price", Value.int 250)]
    (Value.str "room-1") (by rfl)

theorem update_spec (s : Store) (id : Value) (data : Record) (r : Record)
    (h : dget s id = some r) :
    DataInterfaceStub.update s id data =
      (.ok (dmerge r data), dset s id (dmerge r data)) := by
  unfold DataInterfaceStub.update
  rw [h]

theorem ofRecord_dmerge_update (r : Record) (room : Room) (u : RoomUpdate)
    (hr : Room.ofRecord r = some room) :
    Room.ofRecord (dmerge r u.dump_exclude_none) =
      some { id := room.id,
             number := u.number.getD room.number,
             size := u.size.getD room.size,
             price := u.price.getD room.price } := by
  obtain ⟨h1, h2, h3, h4⟩ := (Room.ofRecord_eq_some r room).mp hr
  apply (Room.ofRecord_eq_some _ _).mpr
  obtain ⟨n, sz, p⟩ := u
  cases n <;> cases sz <;> cases p <;>
    simp [RoomUpdate.dump_exclude_none, dmerge, dget_dset, h1, h2, h3, h4]

/-- C5: partial update is a frame property — `update_room` overwrites
exactly the non-`None` fields of the update input on the stored record,
leaves every other field unchanged, and returns the full updated room. -/
theorem C5_partial_update_frame (room_id : String) (u : RoomUpdate)
    (s : Store) (r : Record) (room : Room)
    (hs : dget s (.str room_id) = some r)
    (hr : Room.ofRecord r = some room) :
    update_room room_id u s =
      (.ok { id := room.id,
             number := u.number.getD room.number,
             size := u.size.getD room.size,
             price := u.price.getD room.price },
       dset s (.str room_id) (dmerge r u.dump_exclude_none)) := by
  have hm := ofRecord_dmerge_update r room u hr
  unfold update_room
  dsimp only
  rw [update_spec s (.str room_id) u.dump_exclude_none r hs]
  simp only [hm]

/-- C5 witness: the `test_update_room` scenario — updating
`{number: "101", size: 2, price: 150}` with only `{price: 200}` yields
`{number: "101", size: 2, price: 200}`. -/
theorem C5_partial_update_frame_witness :
    update_room "room-1" { price := some 200 }
        [(Value.str "room-1",
          [("id", Value.str "room-1"), ("number", Value.str "101"),
           ("size", Value.int 2), ("price", Value.int 150)])] =
      (Except.ok { id := "room-1", number := "101", size := 2,
                   price := 200 },
       [(Value.str "room-1",
         [("id", Value.str "room-1"), ("number", Value.str "101"),
          ("size", Value.int 2), ("price", Value.int 200)])]) :=
  C5_partial_update_frame "room-1" { price := some 200 }
    [(Value.str "room-1",
      [("id", Value.str "room-1"), ("number", Value.str "101"),
       ("size", Value.int 2), ("price", Value.int 150)])]
    [("id", Value.str "room-1"), ("number", Value.str "101"),
     ("size", Value.int 2), ("price", Value.int 150)]
    { id := "room-1", number := "101", size := 2, price := 150 }
    (by rfl) (by rfl)

/-- C6: round-trip — for each entity kind, reading back the id of a
just-created record returns exactly the model the create call returned
(input fields intact, plus the generated id and, for bookings, the derived
price). -/
theorem C6_round_trip (rd : RoomCreate) (cd : CustomerCreate)
    (bd : BookingCreate) (rid cid bid : String) (s1 s2 bs rs : Store)
    (room : Record) (P : Int)
    (hroom : dget rs (.str bd.room_id) = some room)
    (hP : dget room "price" = some (.int P)) :
    (∀ (r1 : Room) (s1a : Store), create_room rd rid s1 = (.ok r1, s1a) →
      read_room r1.id s1a = .ok r1) ∧
    (∀ (c1 : Customer) (s2a : Store),
      create_customer cd cid s2 = (.ok c1, s2a) →
      read_customer c1.id s2a = .ok c1) ∧
    (∀ (b1 : Booking) (bsa : Store),
      create_booking bd bid bs rs = (.ok b1, bsa) →
      read_booking b1.id bsa = .ok b1) := by
  refine ⟨?_, ?_, ?_⟩
  · intro r1 s1a h
    rw [create_room_spec rd rid s1] at h
    injection h with hok hstore
    injection hok with hok
    subst hok hstore
    simp [read_room, DataInterfaceStub.read_by_id, dget_dset_self,
      Room.ofRecord, dget]
  · intro c1 s2a h
    rw [create_customer_spec cd cid s2] at h
    injection h with hok hstore
    injection hok with hok
    subst hok hstore
    simp [read_customer, DataInterfaceStub.read_by_id, dget_dset_self,
      Customer.ofRecord, dget]
  · intro b1 bsa h
    rw [create_booking_spec bd bid bs rs room P hroom hP] at h
    injection h with hok hstore
    injection hok with hok
    subst hok hstore
    simp [read_booking, DataInterfaceStub.read_by_id, dget_dset_self,
      Booking.ofRecord, dget]

/-- C6 witness: concrete round-trips for a room, a customer, and a
booking (one night at rate 150). -/
theorem C6_round_trip_witness :
    read_room "r1"
        [(Value.str "r1",
          [("number", Value.str "101"), ("size", Value.int 2),
           ("price", Value.int 150), ("id", Value.str "r1")])] =
      Except.ok { id := "r1", number := "101", size := 2, price := 150 } ∧
    read_customer "c1"
        [(Value.str "c1",
          [("name", Value.str "Alice"),
           ("email", Value.str "alice@example.com"),
           ("id", Value.str "c1")])] =
      Except.ok { id := "c1", name := "Alice",
                  email := "alice@example.com" } ∧
    read_booking "b1"
        [(Value.str "b1",
          [("room_id", Value.str "room-1"),
           ("customer_id", Value.str "cust-1"),
           ("from_date", Value.date (toOrdinal 2024 12 24)),
           ("to_date", Value.date (toOrdinal 2024 12 25)),
           ("id", Value.str "b1"), ("price", Value.int 150)])] =
      Except.ok { id := "b1", room_id := "room-1",
                  customer_id := "cust-1",
                  from_date := toOrdinal 2024 12 24,
                  to_date := toOrdinal 2024 12 25, price := 150 } := by
  have h := C6_round_trip { number := "101", size := 2, price := 150 }
    { name := "Alice", email := "alice@example.com" }
    { room_id := "room-1", customer_id := "cust-1",
      from_date := toOrdinal 2024 12 24, to_date := toOrdinal 2024 12 25 }
    "r1" "c1" "b1" [] [] []
    [(Value.str "room-1",
      [("id", Value.str "room-1"), ("number", Value.str "101"),
       ("size", Value.int 2), ("price", Value.int 150)])]
    [("id", Value.str "room-1"), ("number", Value.str "101"),
     ("size", Value.int 2), ("price", Value.int 150)]
    150 (by rfl) (by rfl)
  exact ⟨h.1 { id := "r1", number := "101", size := 2, price := 150 } _
      (by rfl),
    h.2.1 { id := "c1", name := "Alice", email := "alice@example.com" } _
      (by rfl),
    h.2.2 { id := "b1", room_id := "room-1", customer_id := "cust-1",
            from_date := toOrdinal 2024 12 24,
            to_date := toOrdinal 2024 12 25, price := 150 } _ (by rfl)⟩

/-- C8: `read_all` returns every stored record, in insertion order, and
never fails: on the empty store it is the empty sequence, every record
reachable by key lookup is in its output, and a freshly created record
appears appended at the end. -/
theorem C8_read_all (s : Store) (r : Record) (k : Value)
    (h1 : dget r "id" = some k) (h2 : dget s k = none) :
    DataInterfaceStub.read_all ([] : Store) = [] ∧
    (∀ (k0 : Value) (r0 : Record), dget s k0 = some r0 →
      r0 ∈ DataInterfaceStub.read_all s) ∧
    DataInterfaceStub.read_all (DataInterfaceStub.create s r).2 =
      DataInterfaceStub.read_all s ++ [r] := by
  refine ⟨rfl, ?_, ?_⟩
  · intro k0 r0 h
    exact List.mem_map_of_mem _ (dget_mem s k0 r0 h)
  · unfold DataInterfaceStub.create
    rw [h1]
    dsimp only
    rw [dset_eq_append s k r h2]
    simp [DataInterfaceStub.read_all]

/-- C8 witness: a one-room store, then creating a second room; `read_all`
lists both records in insertion order. -/
theorem C8_read_all_witness :
    DataInterfaceStub.read_all ([] : Store) = [] ∧
    [("id", Value.str "room-1"), ("price", Value.int 150)] ∈
      DataInterfaceStub.read_all
        [(Value.str "room-1",
          [("id", Value.str "room-1"), ("price", Value.int 150)])] ∧
    DataInterfaceStub.read_all
        (DataInterfaceStub.create
          [(Value.str "room-1",
            [("id", Value.str "room-1"), ("price", Value.int 150)])]
          [("id", Value.str "room-2"), ("price", Value.int 250)]).2 =
      DataInterfaceStub.read_all
        [(Value.str "room-1",
          [("id", Value.str "room-1"), ("price", Value.int 150)])] ++
      [[("id", Value.str "room-2"), ("price", Value.int 250)]] := by
  have h := C8_read_all
    [(Value.str "room-1",
      [("id", Value.str "room-1"), ("price", Value.int 150)])]
    [("id", Value.str "room-2"), ("price", Value.int 250)]
    (Value.str "room-2") (by rfl) (by rfl)
  exact ⟨h.1,
    h.2.1 (Value.str "room-1")
      [("id", Value.str "room-1"), ("price", Value.int 150)] (by rfl),
    h.2.2⟩

/-- Fold a list of `update_room` calls over the room store, keeping only
the resulting store state. -/
def applyRoomUpdates (us : List (String × RoomUpdate)) (s : Store) :
    Store :=
  us.foldl (fun acc iu => (update_room iu.1 iu.2 acc).2) s

theorem applyOps_roomUpdates_bookings (us : List (String × RoomUpdate))
    (sys : Sys) :
    (applyOps sys (us.map fun iu => EntityOp.updateRoom iu.1 iu.2)).bookings
      = sys.bookings := by
  induction us generalizing sys with
  | nil => rfl
  | cons iu rest ih => exact ih _

/-- C3: a booking's price is frozen at creation — after any subsequent
sequence of `update_room` calls on the room store (e.g. changing the
room's price), `read_booking` on the booking's id still returns the
original booking, whose price is the originally computed
`nights * original room price`. -/
theorem C3_price_frozen (data : BookingCreate) (newId : String) (sys : Sys)
    (room : Record) (P : Int) (b : Booking) (bs1 : Store)
    (hroom : dget sys.rooms (.str data.room_id) = some room)
    (hP : dget room "price" = some (.int P))
    (hcreate :
      create_booking data newId sys.bookings sys.rooms = (.ok b, bs1))
    (updates : List (String × RoomUpdate)) :
    read_booking b.id
        (applyOps { sys with bookings := bs1 }
          (updates.map fun iu => EntityOp.updateRoom iu.1 iu.2)).bookings =
      .ok b ∧
    b.price = (data.to_date - data.from_date) * P := by
  rw [applyOps_roomUpdates_bookings]
  rw [create_booking_spec data newId sys.bookings sys.rooms room P hroom hP]
    at hcreate
  injection hcreate with hok hstore
  injection hok with hok
  subst hok hstore
  constructor
  · simp [read_booking, DataInterfaceStub.read_by_id, dget_dset_self,
      Booking.ofRecord, dget]
  · rfl

/-- C3 witness: the spec scenario — book five nights at room price 100
(price 500), then raise the room's price to 500; re-reading the booking
still shows 500, i.e. `5 * 100`. -/
theorem C3_price_frozen_witness :
    read_booking "b1"
        (applyOps
          { rooms :=
              [(Value.str "room-1",
                [("id", Value.str "room-1"), ("number", Value.str "101"),
                 ("size", Value.int 2), ("price", Value.int 100)])],
            customers := [],
            bookings :=
              [(Value.str "b1",
                [("room_id", Value.str "room-1"),
                 ("customer_id", Value.str "cust-1"),
                 ("from_date", Value.date (toOrdinal 2024 12 20)),
                 ("to_date", Value.date (toOrdinal 2024 12 25)),
                 ("id", Value.str "b1"),
                 ("price", Value.int 500)])] }
          ([("room-1", { price := some 500 })].map
            fun iu => EntityOp.updateRoom iu.1 iu.2)).bookings =
      .ok { id := "b1", room_id := "room-1", customer_id := "cust-1",
            from_date := toOrdinal 2024 12 20,
            to_date := toOrdinal 2024 12 25, price := 500 } ∧
    (500 : Int) =
      (toOrdinal 2024 12 25 - toOrdinal 2024 12 20) * 100 :=
  C3_price_frozen
    { room_id := "room-1", customer_id := "cust-1",
      from_date := toOrdinal 2024 12 20, to_date := toOrdinal 2024 12 25 }
    "b1"
    { rooms :=
        [(Value.str "room-1",
          [("id", Value.str "room-1"), ("number", Value.str "101"),
           ("size", Value.int 2), ("price", Value.int 100)])],
      customers := [], bookings := [] }
    [("id", Value.str "room-1"), ("number", Value.str "101"),
     ("size", Value.int 2), ("price", Value.int 100)]
    100
    { id := "b1", room_id := "room-1", customer_id := "cust-1",
      from_date := toOrdinal 2024 12 20,
      to_date := toOrdinal 2024 12 25, price := 500 }
    [(Value.str "b1",
      [("room_id", Value.str "room-1"),
       ("customer_id", Value.str "cust-1"),
       ("from_date", Value.date (toOrdinal 2024 12 20)),
       ("to_date", Value.date (toOrdinal 2024 12 25)),
       ("id", Value.str "b1"), ("price", Value.int 500)])]
    (by rfl) (by rfl) (by rfl)
    [("room-1", { price := some 500 })]

/-- C10: storage-level `create` on a record lacking an `id` key raises
`KeyError("id")` and leaves the store unchanged; and the branch is
unreachable from the operations layer — `create_room` and
`create_customer` always succeed, and `create_booking` can never surface
that error (its record always carries the generated id). -/
theorem C10_create_missing_id (s : Store) (r : Record)
    (h : dget r "id" = none) :
    DataInterfaceStub.create s r = (.error (.keyError "id"), s) ∧
    (∀ (d : RoomCreate) (newId : String) (s0 : Store),
      (create_room d newId s0).1 =
        .ok { id := newId, number := d.number, size := d.size,
              price := d.price }) ∧
    (∀ (d : CustomerCreate) (newId : String) (s0 : Store),
      (create_customer d newId s0).1 =
        .ok { id := newId, name := d.name, email := d.email }) ∧
    (∀ (d : BookingCreate) (newId : String) (bs rs : Store),
      (create_booking d newId bs rs).1 ≠ .error (.keyError "id")) := by
  refine ⟨?_, ?_, ?_, ?_⟩
  · unfold DataInterfaceStub.create
    rw [h]
  · intro d newId s0
    rw [create_room_spec d newId s0]
  · intro d newId s0
    rw [create_customer_spec d newId s0]
  · intro d newId bs rs
    cases hg : dget rs (Value.str d.room_id) with
    | none =>
        rw [create_booking_room_absent d newId bs rs hg]
        simp
    | some room =>
        cases hp : dget room "price" with
        | none =>
            rw [create_booking_price_missing d newId bs rs room hg hp]
            simp
        | some v =>
            cases v with
            | str a =>
                rw [create_booking_price_str d newId bs rs room a hg hp]
                simp
            | date a =>
                rw [create_booking_price_date d newId bs rs room a hg hp]
                simp
            | int P =>
                rw [create_booking_spec d newId bs rs room P hg hp]
                simp

/-- C10 witness: a record holding only a room number, created against the
empty store. -/
theorem C10_create_missing_id_witness :
    DataInterfaceStub.create [] [("number", .str "101")] =
      (.error (.keyError "id"), []) ∧
    (∀ (d : RoomCreate) (newId : String) (s0 : Store),
      (create_room d newId s0).1 =
        .ok { id := newId, number := d.number, size := d.size,
              price := d.price }) ∧
    (∀ (d : CustomerCreate) (newId : String) (s0 : Store),
      (create_customer d newId s0).1 =
        .ok { id := newId, name := d.name, email := d.email }) ∧
    (∀ (d : BookingCreate) (newId : String) (bs rs : Store),
      (create_booking d newId bs rs).1 ≠ .error (.keyError "id")) :=
  C10_create_missing_id [] [("number", .str "101")] (by rfl)

theorem keyIdCoherent_nil : keyIdCoherent [] := by
  intro kv hkv
  simp at hkv

theorem keyIdCoherent_dset (s : Store) (k : Value) (r : Record)
    (hc : keyIdCoherent s) (h : dget r "id" = some k) :
    keyIdCoherent (dset s k r) := by
  intro kv hkv
  rcases mem_dset s k r kv hkv with h1 | h1
  · subst h1
    exact h
  · exact hc kv h1

theorem keyIdCoherent_ddel (s : Store) (k : Value)
    (hc : keyIdCoherent s) : keyIdCoherent (ddel s k) :=
  fun kv hkv => hc kv (mem_ddel s k kv hkv)

theorem dget_dmerge_update_id (r : Record) (u : RoomUpdate) :
    dget (dmerge r u.dump_exclude_none) "id" = dget r "id" := by
  obtain ⟨n, sz, p⟩ := u
  cases n <;> cases sz <;> cases p <;>
    simp [RoomUpdate.dump_exclude_none, dmerge, dget_dset]

theorem delete_preserves (s : Store) (k : Value) (hc : keyIdCoherent s) :
    keyIdCoherent (DataInterfaceStub.delete s k).2 := by
  unfold DataInterfaceStub.delete
  cases h : dget s k with
  | none => exact hc
  | some r => exact keyIdCoherent_ddel s k hc

theorem update_room_store (id : String) (u : RoomUpdate) (s : Store)
    (r : Record) (h : dget s (.str id) = some r) :
    (update_room id u s).2 =
      dset s (.str id) (dmerge r u.dump_exclude_none) := by
  unfold update_room
  dsimp only
  rw [update_spec s (.str id) u.dump_exclude_none r h]
  cases hm : Room.ofRecord (dmerge r u.dump_exclude_none) <;>
    simp [hm]

theorem update_room_preserves (id : String) (u : RoomUpdate) (s : Store)
    (hc : keyIdCoherent s) : keyIdCoherent (update_room id u s).2 := by
  cases h : dget s (.str id) with
  | none =>
      have habs : update_room id u s = (.error (.keyError "Not found"), s) := by
        unfold update_room DataInterfaceStub.update
        dsimp only
        rw [h]
      rw [habs]
      exact hc
  | some r =>
      rw [update_room_store id u s r h]
      exact keyIdCoherent_dset s (.str id) (dmerge r u.dump_exclude_none) hc
        (by rw [dget_dmerge_update_id r u]; exact hc (.str id, r) (dget_mem s (.str id) r h))

theorem create_booking_preserves (d : BookingCreate) (newId : String)
    (bs rs : Store) (hc : keyIdCoherent bs) :
    keyIdCoherent (create_booking d newId bs rs).2 := by
  cases hg : dget rs (Value.str d.room_id) with
  | none =>
      rw [create_booking_room_absent d newId bs rs hg]
      exact hc
  | some room =>
      cases hp : dget room "price" with
      | none =>
          rw [create_booking_price_missing d newId bs rs room hg hp]
          exact hc
      | some v =>
          cases v with
          | str a =>
              rw [create_booking_price_str d newId bs rs room a hg hp]
              exact hc
          | date a =>
              rw [create_booking_price_date d newId bs rs room a hg hp]
              exact hc
          | int P =>
              rw [create_booking_spec d newId bs rs room P hg hp]
              exact keyIdCoherent_dset bs (.str newId) _ hc (by rfl)

theorem applyOp_preserves (sys : Sys) (op : EntityOp)
    (h1 : keyIdCoherent sys.rooms) (h2 : keyIdCoherent sys.customers)
    (h3 : keyIdCoherent sys.bookings) :
    keyIdCoherent (applyOp sys op).rooms ∧
    keyIdCoherent (applyOp sys op).customers ∧
    keyIdCoherent (applyOp sys op).bookings := by
  cases op with
  | createRoom d newId =>
      refine ⟨?_, h2, h3⟩
      show keyIdCoherent (create_room d newId sys.rooms).2
      rw [create_room_spec d newId sys.rooms]
      exact keyIdCoherent_dset sys.rooms (.str newId) _ h1 (by rfl)
  | updateRoom id u =>
      exact ⟨update_room_preserves id u sys.rooms h1, h2, h3⟩
  | deleteRoom id =>
      exact ⟨delete_preserves sys.rooms (.str id) h1, h2, h3⟩
  | createCustomer d newId =>
      refine ⟨h1, ?_, h3⟩
      show keyIdCoherent (create_customer d newId sys.customers).2
      rw [create_customer_spec d newId sys.customers]
      exact keyIdCoherent_dset sys.customers (.str newId) _ h2 (by rfl)
  | deleteCustomer id =>
      exact ⟨h1, delete_preserves sys.customers (.str id) h2, h3⟩
  | createBooking d newId =>
      exact ⟨h1, h2,
        create_booking_preserves d newId sys.bookings sys.rooms h3⟩
  | deleteBooking id =>
      exact ⟨h1, h2, delete_preserves sys.bookings (.str id) h3⟩

/-- C9: key–id coherence — starting from fresh stores, after any sequence
of entity-operation calls, every key `k` of every store maps to a record
whose `id` field holds exactly `k`. -/
theorem C9_key_id_coherent (ops : List EntityOp) :
    keyIdCoherent (applyOps ⟨[], [], []⟩ ops).rooms ∧
    keyIdCoherent (applyOps ⟨[], [], []⟩ ops).customers ∧
    keyIdCoherent (applyOps ⟨[], [], []⟩ ops).bookings := by
  suffices h : ∀ (sys : Sys), keyIdCoherent sys.rooms →
      keyIdCoherent sys.customers → keyIdCoherent sys.bookings →
      keyIdCoherent (applyOps sys ops).rooms ∧
      keyIdCoherent (applyOps sys ops).customers ∧
      keyIdCoherent (applyOps sys ops).bookings by
    exact h ⟨[], [], []⟩ keyIdCoherent_nil keyIdCoherent_nil
      keyIdCoherent_nil
  induction ops with
  | nil => exact fun sys h1 h2 h3 => ⟨h1, h2, h3⟩
  | cons op rest ih =>
      intro sys h1 h2 h3
      obtain ⟨g1, g2, g3⟩ := applyOp_preserves sys op h1 h2 h3
      exact ih (applyOp sys op) g1 g2 g3

end HotelApi
